import Mathlib

/-!
Shallow embedding of the AR-Net forecasting pipeline (`code/bifrost.py`):
the FlatNet/DeepNet predictor models, the Bifrost model object with its
fit / evaluate / predict operations, the training loop with its delayed
soft-sparsity regularizer, and the data-preparation pipeline
(normalization and window tabularization).

Series values are modelled as exact rationals (the Python code works on
floating-point tensors; we idealize arithmetic as exact).  The
regularization loss, which involves `exp` and a cube root, is modelled
over the reals.  The differentiable-runtime collaborators (autograd,
the Adam optimizer step, the learning-rate scheduler, mini-batch
shuffling) are black boxes per the spec; they are passed in as explicit
function parameters (`upd`, `sh`) so that every theorem quantifies over
their behaviour.

Collaborators from `code/make_dataset.py` and `code/utils.py` are not
part of the sources; they are modelled from the spec and are marked
`Modelled from the spec:` in their doc comments.
-/

/-- Mean of a list of rationals (`np.mean` over exact rationals);
division by zero yields 0 for the empty list. -/
def qmean (l : List ℚ) : ℚ := l.sum / l.length

/-- Mean of a list of reals (used for the per-epoch mean of the recorded
real-valued regularization losses). -/
noncomputable def rmean (l : List ℝ) : ℝ := l.sum / l.length

/-- Mean over all entries of a matrix of reals (`torch.mean` of a
2-d tensor: total sum divided by the number of entries). -/
noncomputable def rmatMean (m : List (List ℝ)) : ℝ :=
  (m.map List.sum).sum / ((m.map List.length).sum : ℕ)

/-- Dot product of two rational vectors (truncated at the shorter one;
in the code both always have the layer's input width). -/
def dot (a b : List ℚ) : ℚ := ((a.zip b).map (fun p => p.1 * p.2)).sum

/-- One `nn.Linear` layer: a weight matrix (one row per output unit)
and a bias vector. -/
structure LinearLayer where
  weight : List (List ℚ)
  bias : List ℚ
deriving DecidableEq, Inhabited

/-- A stack of linear layers (`nn.ModuleList` of `nn.Linear`), as built
by `DeepNet.__init__`; `FlatNet` is the one-layer case. -/
abbrev Net := List LinearLayer

/-- Apply one linear layer: each output unit is the dot product of its
weight row with the input plus its bias entry. -/
def linear_apply (l : LinearLayer) (x : List ℚ) : List ℚ :=
  (l.weight.zip l.bias).map (fun rb => dot rb.1 x + rb.2)

/-- Elementwise rectified linear activation (`F.relu`). -/
def reluVec (x : List ℚ) : List ℚ := x.map (fun v => max v 0)

/-- `DeepNet.forward`, with the running layer index: the activation is
applied before every layer except the first (`if i > 0: x = activation(x)`). -/
def deep_forward_aux : ℕ → Net → List ℚ → List ℚ
  | _, [], x => x
  | i, l :: ls, x => deep_forward_aux (i + 1) ls (linear_apply l (if 0 < i then reluVec x else x))

/-- `DeepNet.forward` on an input vector. -/
def deep_forward (net : Net) (x : List ℚ) : List ℚ := deep_forward_aux 0 net x

/-- `FlatNet.forward`: a single affine transform, no activation. -/
def flat_forward (l : LinearLayer) (x : List ℚ) : List ℚ := linear_apply l x

/-- The shape contract of one `nn.Linear(din, dout)` layer: `dout` weight
rows, each of length `din`, and a bias of length `dout`. -/
def LayerShape (l : LinearLayer) (din dout : ℕ) : Prop :=
  l.weight.length = dout ∧ (∀ r ∈ l.weight, r.length = din) ∧ l.bias.length = dout

/-- First layer of a net (`self.model.layers[0]`); nets built by the
`DeepNet` constructor are never empty. -/
def firstLayer (net : Net) : LinearLayer := net.headI

/-- The first layer's weight matrix (`self.model.layers[0].weight`),
the quantity regularized during training and extracted at evaluation. -/
def firstLayerWeight (net : Net) : List (List ℚ) := (firstLayer net).weight

/-- Row 0 of the first layer's weight matrix
(`self.model.layers[0].weight.detach().numpy()[0]`). -/
def firstRow (net : Net) : List ℚ := (firstLayerWeight net).headI

/-- One supervised example produced by the tabularizer: an input vector
of lag features plus trend features, and a target vector of the
forecast-horizon values (empty in the `n_forecasts = 0` inference mode). -/
structure Sample where
  inputs : List ℚ
  targets : List ℚ
deriving DecidableEq, Inhabited

/-- Modelled from the spec: `tabularize_univariate_datetime`
(`code/make_dataset.py`, not in the sources).  Per spec section 4.2, for
each valid origin `t` from `n_lags` to `len(series) - n_forecasts` it
emits one example whose input holds the `n_lags` normalized values
preceding the origin together with `n_trend` trend-index features
derived from `t`, and whose target holds the `n_forecasts` values from
the origin on.  The lag features are laid out most-recent-first (spec
sections 3 and 4.6: "the model's internal feature order is
most-recent-first"; hence the source's `weights_rereversed`), followed
by the trend features.  With `n_forecasts = 0` it produces one example
per origin up to the end of the series, with an empty target. -/
def tabularize_univariate_datetime (ys : List ℚ) (n_lags n_forecasts n_trend : ℕ) :
    List Sample :=
  (List.range' n_lags (ys.length + 1 - n_lags - n_forecasts)).map fun t =>
    { inputs := ((ys.drop (t - n_lags)).take n_lags).reverse
        ++ (List.range n_trend).map (fun _ => (t : ℚ)),
      targets := (ys.drop t).take n_forecasts }

/-- Modelled from the spec: `check_dataframe` (`code/make_dataset.py`,
not in the sources) validates column presence and timestamp
monotonicity of the raw dataframe and returns it; on a bare value
series, with timestamps abstracted away, it is the identity. -/
def check_dataframe (ys : List ℚ) : List ℚ := ys

/-- Normalization statistics computed once at first fit
(spec section 3: "{mean, std} (or equivalent shift/scale)"). -/
structure DataParams where
  shift : ℚ
  scale : ℚ
deriving DecidableEq, Inhabited

/-- Minimum of a value list (0 for the empty list, unreachable here). -/
def listMin : List ℚ → ℚ
  | [] => 0
  | x :: xs => xs.foldl min x

/-- Maximum of a value list (0 for the empty list, unreachable here). -/
def listMax : List ℚ → ℚ
  | [] => 0
  | x :: xs => xs.foldl max x

/-- Modelled from the spec: `init_data_params` (`code/make_dataset.py`,
not in the sources).  Computes shift/scale statistics over the
observation values (here: min shift and range scale, an "equivalent
shift/scale" per spec section 3); with `normalize = False` it is
identity bookkeeping (shift 0, scale 1), so scaled values equal raw
values (spec sections 4.1 and 8, scenario D). -/
def init_data_params (ys : List ℚ) (normalize : Bool) : DataParams :=
  if normalize then { shift := listMin ys, scale := listMax ys - listMin ys }
  else { shift := 0, scale := 1 }

/-- Modelled from the spec: `normalize` (`code/make_dataset.py`, not in
the sources).  The pure linear transform `(x - shift) / scale` applied
to every observation, always using the supplied (training-derived)
params (spec section 4.1). -/
def normalize_df (ys : List ℚ) (dp : DataParams) : List ℚ :=
  ys.map (fun y => (y - dp.shift) / dp.scale)

/-- Modelled from the spec: `utils.symmetric_total_percentage_error`
(`code/utils.py`, not in the sources).  Per spec section 4.6: for each
coefficient pair `(a, p)` take `2*|a-p| / (|a|+|p|)` (0 when both are
0), average over all coefficients, and express as a percentage. -/
def symmetric_total_percentage_error (a p : List ℚ) : ℚ :=
  100 * qmean ((a.zip p).map
    (fun x => if x.1 = 0 ∧ x.2 = 0 then 0 else 2 * |x.1 - x.2| / (|x.1| + |x.2|)))

/-- Modelled from the spec: `utils.get_regularization_lambda`
(`code/utils.py`, not in the sources).  Per spec section 4.5, step 1:
the strength is inactive (zero) for `e < lambda_delay`, then ramps
toward a target derived from `est_sparsity` (0 = fully sparse target,
1 = no regularization); the exact ramp shape is an implementation
choice as long as it is zero before the delay, non-decreasing after,
and bounded.  We model the target as `1 - est_sparsity` with a capped
linear ramp reaching it 40 epochs after the delay.  `none` models the
Python `None` checked by `if reg_lambda is not None` in `_train_epoch`. -/
def get_regularization_lambda (est_sparsity : ℚ) (lambda_delay e : ℕ) : Option ℚ :=
  if e < lambda_delay then none
  else some ((1 - est_sparsity) * min 1 (((e : ℚ) - (lambda_delay : ℚ) + 1) / 40))

/-- Mini-batch chunking of the example collection, as performed by
`DataLoader(dataset, batch_size=bs)`: consecutive chunks of size `bs`,
the final chunk possibly smaller (spec section 4.3).  The fuel argument
(the list length) makes the recursion structural. -/
def batchifyAux (bs : ℕ) : ℕ → List Sample → List (List Sample)
  | 0, _ => []
  | _ + 1, [] => []
  | fuel + 1, x :: xs => (x :: xs).take bs :: batchifyAux bs fuel ((x :: xs).drop bs)

/-- Chunk a dataset into mini-batches of size `bs` (empty for
`bs = 0`, which `DataLoader` rejects before iterating). -/
def batchify (bs : ℕ) (l : List Sample) : List (List Sample) :=
  if bs = 0 then [] else batchifyAux bs l.length l

example : tabularize_univariate_datetime [10, 20, 30] 2 1 1
    = [{ inputs := [20, 10, 2], targets := [30] }] := by decide

example : tabularize_univariate_datetime [1, 2, 3, 4] 1 1 0
    = [{ inputs := [1], targets := [2] },
       { inputs := [2], targets := [3] },
       { inputs := [3], targets := [4] }] := by decide

example : tabularize_univariate_datetime [1, 2] 1 0 0
    = [{ inputs := [1], targets := [] }, { inputs := [2], targets := [] }] := by decide

/-- The error taxonomy of the spec (section 7) together with the Python
runtime errors the source can raise: the two `raise Exception` guards
(fit-after-fit and not-yet-fit), `ValueError` for an empty prediction
dataframe or a zero-length loader, `AssertionError` for the
`assert` statements on `data_params`, `IndexError` for `dataset[-1]`
on an empty collection, and `NameError` for the undefined name `stats`
in the verbose ground-truth branch of `_evaluate`. -/
inductive Err where
  | alreadyFitError
  | notFitError
  | valueError
  | assertionError
  | indexError
  | nameError
deriving DecidableEq

/-- The training hyperparameter bundle built in `Bifrost.__init__`
(`self.train_config`). -/
structure TrainConfig where
  lr : ℚ
  lr_decay : ℚ
  epochs : ℕ
  batch : ℕ
  est_sparsity : ℚ
  lambda_delay : ℕ
deriving DecidableEq

/-- The fixed defaults of `Bifrost.__init__`. -/
def default_train_config : TrainConfig :=
  { lr := 1 / 1000, lr_decay := 95 / 100, epochs := 50, batch := 16,
    est_sparsity := 1 / 10, lambda_delay := 10 }

/-- The accumulated `self.results` mapping (spec: TrainingResult).
Per-epoch primary losses are exact rationals; per-epoch regularization
losses are reals (they involve `exp` and a cube root).  The wall-clock
`time_train` entry is external real time and is not modelled. -/
structure Results where
  epoch_losses : List ℚ := []
  epoch_regularizations : List ℝ := []
  loss_train : Option ℚ := none
  loss_val : Option ℚ := none
  mse_val : Option ℚ := none
  weights : Option (List ℚ) := none
  true_ar : Option (List ℚ) := none
  sTPE_weights : Option ℚ := none

/-- The `Bifrost` model object.  `history = none` is the Unfit state;
`history = some _` is the Fit state with the stored normalized series. -/
structure Bifrost where
  n_lags : ℕ
  n_forecasts : ℕ
  n_trend : ℕ
  num_hidden_layers : ℕ
  normalize : Bool
  verbose : Bool
  train_config : TrainConfig
  model : Net
  history : Option (List ℚ)
  data_params : Option DataParams
  results : Results

/-- `Bifrost.__init__`: a fresh Unfit model with the default training
configuration and empty results.  The `DeepNet` parameter
initialization is implementation-defined randomness (spec section 4.4),
so the freshly initialized net is a parameter. -/
def bifrost_init (n_lags n_forecasts n_trend num_hidden_layers : ℕ)
    (normalize verbose : Bool) (net : Net) : Bifrost :=
  { n_lags := n_lags, n_forecasts := n_forecasts, n_trend := n_trend,
    num_hidden_layers := num_hidden_layers, normalize := normalize,
    verbose := verbose, train_config := default_train_config,
    model := net, history := none, data_params := none, results := {} }

/-- The flattened elementwise squared differences between a matrix of
predictions and a matrix of targets (row = example of the batch). -/
def flat_sq_diffs (ps ts : List (List ℚ)) : List ℚ :=
  ((ps.zip ts).map (fun pt => (pt.1.zip pt.2).map (fun ab => (ab.1 - ab.2) ^ 2))).flatten

/-- The mean of the flattened elementwise squared differences:
both `nn.MSELoss()` (default mean reduction) on the stacked tensors and
`np.mean((predicted - actual) ** 2)` compute this. -/
def flatMSE (ps ts : List (List ℚ)) : ℚ := qmean (flat_sq_diffs ps ts)

/-- The primary loss of one mini-batch in `_train_epoch` / `_evaluate`:
`self.loss_fn(predicted, targets)` with `loss_fn = nn.MSELoss()`. -/
def batch_mse (net : Net) (b : List Sample) : ℚ :=
  flatMSE (b.map (fun s => deep_forward net s.inputs)) (b.map (fun s => s.targets))

/-- The per-batch regularization loss of `_train_epoch`, transcribing
lines 195-201 of `bifrost.py`: `reg_loss` starts at `torch.zeros(1)`;
when `reg_lambda` is not `None`, the first layer's weights are taken in
absolute value, the soft indicator
`torch.div(2.0, 1.0 + torch.exp(-3.0 * abs_weights.pow(1.0/3.0))) - 1.0`
is applied entrywise, and `reg_loss` becomes
`reg_lambda * (reg_loss + torch.mean(reg))`. -/
noncomputable def batch_reg (lam : Option ℚ) (net : Net) : ℝ :=
  let reg_loss : ℝ := 0
  match lam with
  | none => reg_loss
  | some l =>
    let abs_weights : List (List ℝ) :=
      (firstLayerWeight net).map (fun row => row.map (fun w => |(w : ℝ)|))
    let reg : List (List ℝ) :=
      abs_weights.map (fun row => row.map
        (fun a => 2 / (1 + Real.exp (-3 * a ^ ((1 : ℝ) / 3))) - 1))
    (l : ℝ) * (reg_loss + rmatMean reg)

/-- The loss handed to `loss.backward()` for one mini-batch: the primary
MSE loss plus the regularization loss (when the regularizer is inactive
the added term is the zero `reg_loss`). -/
noncomputable def batch_combined_loss (net : Net) (lam : Option ℚ) (b : List Sample) : ℝ :=
  (batch_mse net b : ℝ) + batch_reg lam net

/-- The inner mini-batch loop of `_train_epoch`.  `upd` is the black-box
differentiable runtime (zero_grad / backward / optimizer step): given
the current parameters, the batch and the scalar value of the combined
loss, it produces the updated parameters.  Returns the updated net, the
recorded per-batch primary losses (`current_epoch_losses`) and the
recorded per-batch regularization losses (`current_epoch_reg_losses`). -/
noncomputable def run_batches (upd : Net → List Sample → ℝ → Net) (lam : Option ℚ) :
    List (List Sample) → Net → Net × List ℚ × List ℝ
  | [], net => (net, [], [])
  | b :: bs, net =>
    let loss := batch_mse net b
    let rl := batch_reg lam net
    let rest := run_batches upd lam bs (upd net b (batch_combined_loss net lam b))
    (rest.1, loss :: rest.2.1, rl :: rest.2.2)

/-- `_train_epoch`: compute the epoch's regularization strength, chunk
the (shuffled) dataset into mini-batches, run the batch loop, and
return the updated net with the epoch's mean primary loss and mean
regularization loss.  `sh` is the black-box per-epoch shuffle of the
`DataLoader`; the learning-rate scheduler step is part of the black-box
runtime. -/
noncomputable def train_epoch (cfg : TrainConfig) (upd : Net → List Sample → ℝ → Net)
    (sh : ℕ → List Sample → List Sample) (ds : List Sample) (e : ℕ) (net : Net) :
    Net × ℚ × ℝ :=
  let lam := get_regularization_lambda cfg.est_sparsity cfg.lambda_delay e
  let r := run_batches upd lam (batchify cfg.batch (sh e ds)) net
  (r.1, qmean r.2.1, rmean r.2.2)

/-- The epoch loop of `_train` over a list of epoch indices, collecting
the per-epoch mean losses and mean regularization losses. -/
noncomputable def train_epochs (cfg : TrainConfig) (upd : Net → List Sample → ℝ → Net)
    (sh : ℕ → List Sample → List Sample) (ds : List Sample) :
    List ℕ → Net → Net × List ℚ × List ℝ
  | [], net => (net, [], [])
  | e :: es, net =>
    let r1 := train_epoch cfg upd sh ds e net
    let rest := train_epochs cfg upd sh ds es r1.1
    (rest.1, r1.2.1 :: rest.2.1, r1.2.2 :: rest.2.2)

/-- `Bifrost.fit` / `Bifrost._train`.  Guards: a model already in Fit
state (`self.history is not None`) raises the fit-once error before any
mutation; then `assert (self.data_params is None)`.  Otherwise
`_prep_data` validates the series, computes the normalization params on
first fit, normalizes, stores the normalized history, tabularizes, and
the epoch loop runs for `train_config.epochs` epochs; the results
record the per-epoch curves and the final train loss
(`epoch_losses[-1]`). -/
noncomputable def fit (upd : Net → List Sample → ℝ → Net)
    (sh : ℕ → List Sample → List Sample) (m : Bifrost) (df : List ℚ) :
    Bifrost × Except Err Unit :=
  match m.history with
  | some _ => (m, .error .alreadyFitError)
  | none =>
    match m.data_params with
    | some _ => (m, .error .assertionError)
    | none =>
      let df0 := check_dataframe df
      let dp := init_data_params df0 m.normalize
      let dfn := normalize_df df0 dp
      let ds := tabularize_univariate_datetime dfn m.n_lags m.n_forecasts m.n_trend
      let tr := train_epochs m.train_config upd sh ds
        (List.range m.train_config.epochs) m.model
      ({ m with
          model := tr.1
          history := some dfn
          data_params := some dp
          results := { m.results with
            epoch_losses := tr.2.1
            epoch_regularizations := tr.2.2
            loss_train := tr.2.1.getLast? } }, .ok ())

/-- `Bifrost.test` / `Bifrost._evaluate`.  Guards: Unfit state raises
the not-fit error; then `assert (self.data_params is not None)`.
`_prep_data` then normalizes the held-out series with the frozen
params, overwrites `self.history` with it, and tabularizes; the loader
is a single unshuffled batch spanning the whole collection
(`batch_size=len(dataset)`, rejected by `DataLoader` when zero).  The
results record the aggregated loss, the independently computed MSE over
the concatenated predictions/targets, and the re-reversed first-layer
weight row; when ground-truth AR coefficients are supplied the sTPE is
stored, after which the verbose branch references the undefined name
`stats` (line 252) and raises a `NameError`. -/
def evaluate (m : Bifrost) (df : List ℚ) (true_ar : Option (List ℚ)) :
    Bifrost × Except Err Unit :=
  match m.history with
  | none => (m, .error .notFitError)
  | some _ =>
    match m.data_params with
    | none => (m, .error .assertionError)
    | some dp =>
      let dfn := normalize_df (check_dataframe df) dp
      let m1 := { m with history := some dfn }
      let ds := tabularize_univariate_datetime dfn m.n_lags m.n_forecasts m.n_trend
      if ds.isEmpty then (m1, .error .valueError)
      else
        let batches := batchify ds.length ds
        let losses := batches.map (batch_mse m.model)
        let predicted := (batches.map (fun b => b.map (fun s => deep_forward m.model s.inputs))).flatten
        let actual := (batches.map (fun b => b.map (fun s => s.targets))).flatten
        let w := (firstRow m.model).reverse
        let r1 := { m.results with
          loss_val := some (qmean losses)
          mse_val := some (flatMSE predicted actual)
          weights := some w }
        match true_ar with
        | none => ({ m1 with results := r1 }, .ok ())
        | some ar =>
          let r2 := { r1 with
            true_ar := some ar
            sTPE_weights := some (symmetric_total_percentage_error ar w) }
          if m.verbose then ({ m1 with results := r2 }, .error .nameError)
          else ({ m1 with results := r2 }, .ok ())

/-- `Bifrost._prep_data_predict`: with no new data, reuse the stored
normalized history as-is; with new data, reject an empty series, then
(`assert (self.data_params is not None)`) normalize with the frozen
params.  Either way, tabularize with `n_forecasts = 0`. -/
def prep_data_predict (m : Bifrost) (h : List ℚ) (df : Option (List ℚ)) :
    Except Err (List Sample) :=
  match df with
  | none => .ok (tabularize_univariate_datetime h m.n_lags 0 m.n_trend)
  | some d =>
    if d.length = 0 then .error .valueError
    else
      match m.data_params with
      | none => .error .assertionError
      | some dp =>
        .ok (tabularize_univariate_datetime (normalize_df (check_dataframe d) dp)
          m.n_lags 0 m.n_trend)

/-- `Bifrost.predict`.  Guard: Unfit state raises the not-fit error.
Then the prediction dataset is built, its last window `dataset[-1]` is
taken (an `IndexError` on an empty collection), one forward pass is run
on it — and the computed forecast is discarded: the Python function
body has no `return` statement, so the call returns `None` (modelled by
`Option.none` in the success value). -/
def predict (m : Bifrost) (df : Option (List ℚ)) :
    Bifrost × Except Err (Option (List ℚ)) :=
  match m.history with
  | none => (m, .error .notFitError)
  | some h =>
    match prep_data_predict m h df with
    | .error e => (m, .error e)
    | .ok ds =>
      match ds.getLast? with
      | none => (m, .error .indexError)
      | some s =>
        let _predicted := deep_forward m.model s.inputs
        (m, .ok none)

/-- The forecast vector that `predict` computes internally (lines
266-268 of `bifrost.py`: the forward pass on the last window of the
prediction dataset built from the stored history) and then discards. -/
def predict_forward (m : Bifrost) : Option (List ℚ) :=
  m.history.bind (fun h =>
    (tabularize_univariate_datetime h m.n_lags 0 m.n_trend).getLast?.map
      (fun s => deep_forward m.model s.inputs))

/-- A minimal one-layer net: single input, single output, weight 1,
bias 0. -/
def net1 : Net := [{ weight := [[1]], bias := [0] }]

/-- A freshly constructed (Unfit) model: `n_lags = 1`, `n_forecasts = 1`,
`n_trend = 0`, no hidden layers, `normalize = False`. -/
def unfitM : Bifrost := bifrost_init 1 1 0 0 false false net1

/-- A model in Fit state: `unfitM` with the frozen identity
normalization params and the stored normalized history `[0, 1]`, as a
first fit on the series `[0, 1]` with `normalize = False` leaves them. -/
def fitM : Bifrost :=
  { unfitM with history := some [0, 1], data_params := some { shift := 0, scale := 1 } }

/-- A verbose variant of the fitted model `fitM`. -/
def fitMV : Bifrost := { fitM with verbose := true }

/-- A Fit-state model with two lags and one trend feature: the
first-layer weight row is `[1, 2, 3]` (the weights of the most recent
lag, the most distant lag, and the trend index, in the tabularizer's
input order), fit on `[10, 20, 30]` with identity normalization. -/
def mC6 : Bifrost :=
  { n_lags := 2, n_forecasts := 1, n_trend := 1, num_hidden_layers := 0,
    normalize := false, verbose := false, train_config := default_train_config,
    model := [{ weight := [[1, 2, 3]], bias := [0] }],
    history := some [10, 20, 30],
    data_params := some { shift := 0, scale := 1 }, results := {} }

/-! Helper lemmas. -/

theorem batchifyAux_nil (bs fuel : ℕ) : batchifyAux bs fuel [] = [] := by
  cases fuel <;> rfl

/-- A loader whose batch size is the whole collection yields exactly one
batch: the collection itself, in order. -/
theorem batchify_self (l : List Sample) (h : l ≠ []) : batchify l.length l = [l] := by
  cases l with
  | nil => exact absurd rfl h
  | cons x xs =>
    rw [batchify, if_neg (by simp)]
    show (x :: xs).take (x :: xs).length
        :: batchifyAux (x :: xs).length xs.length ((x :: xs).drop (x :: xs).length) = [x :: xs]
    rw [List.take_length, List.drop_length, batchifyAux_nil]

theorem qmean_singleton (x : ℚ) : qmean [x] = x := by
  simp [qmean]

theorem rmean_replicate_zero (n : ℕ) : rmean (List.replicate n 0) = 0 := by
  simp [rmean]

/-- With an inactive regularizer the recorded per-batch regularization
losses are all the zero `reg_loss`. -/
theorem run_batches_none_regs (upd : Net → List Sample → ℝ → Net)
    (bs : List (List Sample)) (net : Net) :
    (run_batches upd none bs net).2.2 = List.replicate bs.length 0 := by
  induction bs generalizing net with
  | nil => rfl
  | cons b bs ih => simp [run_batches, batch_reg, ih, List.replicate_succ]

/-- Before `lambda_delay`, an epoch's recorded mean regularization loss
is exactly zero, whatever the current parameters, the runtime update
and the shuffle do. -/
theorem train_epoch_reg_zero (cfg : TrainConfig) (upd : Net → List Sample → ℝ → Net)
    (sh : ℕ → List Sample → List Sample) (ds : List Sample) (e : ℕ) (net : Net)
    (h : e < cfg.lambda_delay) :
    (train_epoch cfg upd sh ds e net).2.2 = 0 := by
  simp [train_epoch, get_regularization_lambda, h, run_batches_none_regs,
    rmean_replicate_zero]

/-- Entry `i` of the recorded per-epoch regularization losses is zero
whenever the `i`-th epoch index is before `lambda_delay`. -/
theorem train_epochs_regs_get (cfg : TrainConfig) (upd : Net → List Sample → ℝ → Net)
    (sh : ℕ → List Sample → List Sample) (ds : List Sample) (es : List ℕ) :
    ∀ (net : Net) (i e : ℕ), es.get? i = some e → e < cfg.lambda_delay →
      (train_epochs cfg upd sh ds es net).2.2.get? i = some 0 := by
  induction es with
  | nil => intro net i e h; simp at h
  | cons a as ih =>
    intro net i e h hlt
    cases i with
    | zero =>
      simp only [List.get?_cons_zero, Option.some.injEq] at h
      subst h
      simp [train_epochs, train_epoch_reg_zero _ _ _ _ _ _ hlt]
    | succ j =>
      simp only [List.get?_cons_succ] at h
      simp only [train_epochs, List.get?_cons_succ]
      exact ih _ j e h hlt

/-- Unfolding `fit` on an already-fit model: the guard fires and the
model is returned unchanged. -/
theorem fit_fitted (upd : Net → List Sample → ℝ → Net)
    (sh : ℕ → List Sample → List Sample) (m : Bifrost) (df hs : List ℚ)
    (h : m.history = some hs) :
    fit upd sh m df = (m, .error .alreadyFitError) := by
  unfold fit; rw [h]

/-- Unfolding `evaluate` on an Unfit model. -/
theorem evaluate_unfit (m : Bifrost) (df : List ℚ) (ta : Option (List ℚ))
    (h : m.history = none) :
    evaluate m df ta = (m, .error .notFitError) := by
  unfold evaluate; rw [h]

/-- Unfolding `predict` on an Unfit model. -/
theorem predict_unfit (m : Bifrost) (df : Option (List ℚ)) (h : m.history = none) :
    predict m df = (m, .error .notFitError) := by
  unfold predict; rw [h]

/-- Unfolding a first fit: the full successful-fit equation. -/
theorem fit_unfit_eq (upd : Net → List Sample → ℝ → Net)
    (sh : ℕ → List Sample → List Sample) (m : Bifrost) (df : List ℚ)
    (h1 : m.history = none) (h2 : m.data_params = none) :
    fit upd sh m df =
      (let df0 := check_dataframe df
       let dp := init_data_params df0 m.normalize
       let dfn := normalize_df df0 dp
       let ds := tabularize_univariate_datetime dfn m.n_lags m.n_forecasts m.n_trend
       let tr := train_epochs m.train_config upd sh ds
         (List.range m.train_config.epochs) m.model
       ({ m with
           model := tr.1
           history := some dfn
           data_params := some dp
           results := { m.results with
             epoch_losses := tr.2.1
             epoch_regularizations := tr.2.2
             loss_train := tr.2.1.getLast? } }, .ok ())) := by
  unfold fit; rw [h1, h2]

/-- C3.  Calling fit on a model already in Fit state always fails with
the fit-once error and returns the model unchanged; calling evaluate or
predict on a never-fit model always fails with the not-fit error and
returns the model unchanged; and a first fit from the Unfit state
succeeds and moves the model to Fit state (so the Unfit-to-Fit
transition happens at most once: once `history` is set, every further
fit attempt fails without mutating anything). -/
theorem C3_fit_once_and_not_fit_guards :
    (∀ (upd : Net → List Sample → ℝ → Net) (sh : ℕ → List Sample → List Sample)
        (m : Bifrost) (df hs : List ℚ), m.history = some hs →
        fit upd sh m df = (m, .error .alreadyFitError))
    ∧ (∀ (m : Bifrost) (df : List ℚ) (ta : Option (List ℚ)), m.history = none →
        evaluate m df ta = (m, .error .notFitError))
    ∧ (∀ (m : Bifrost) (df : Option (List ℚ)), m.history = none →
        predict m df = (m, .error .notFitError))
    ∧ (∀ (upd : Net → List Sample → ℝ → Net) (sh : ℕ → List Sample → List Sample)
        (m : Bifrost) (df : List ℚ), m.history = none → m.data_params = none →
        (fit upd sh m df).2 = .ok () ∧ (fit upd sh m df).1.history ≠ none) := by
  refine ⟨fun upd sh m df hs h => fit_fitted upd sh m df hs h,
    fun m df ta h => evaluate_unfit m df ta h,
    fun m df h => predict_unfit m df h,
    fun upd sh m df h1 h2 => ?_⟩
  rw [fit_unfit_eq upd sh m df h1 h2]
  exact ⟨rfl, by simp⟩

/-- C3 witness: the guards at concrete inputs — a second fit on a Fit
model, and evaluate/predict on a fresh model. -/
theorem C3_witness :
    fit (fun n _ _ => n) (fun _ l => l) fitM [5] = (fitM, .error .alreadyFitError)
    ∧ evaluate unfitM [5] none = (unfitM, .error .notFitError)
    ∧ predict unfitM none = (unfitM, .error .notFitError)
    ∧ (fit (fun n _ _ => n) (fun _ l => l) unfitM [0, 1]).2 = .ok () :=
  ⟨C3_fit_once_and_not_fit_guards.1 _ _ fitM [5] [0, 1] rfl,
   C3_fit_once_and_not_fit_guards.2.1 unfitM [5] none rfl,
   C3_fit_once_and_not_fit_guards.2.2.1 unfitM none rfl,
   (C3_fit_once_and_not_fit_guards.2.2.2 _ _ unfitM [0, 1] rfl rfl).1⟩

/-- C4.  Whenever the regularization strength is active (`reg_lambda`
is not `None`), the per-batch regularization loss equals `reg_lambda`
times the mean, over all entries `w` of the first layer's weight matrix
only, of `2 / (1 + exp(-3 * |w|^(1/3))) - 1`; the combined loss handed
to the backward pass is the primary MSE loss plus that term; and the
regularization loss depends on no weights outside the first layer. -/
theorem C4_first_layer_regularizer (l : ℚ) (net : Net) (b : List Sample) :
    batch_reg (some l) net
      = (l : ℝ) * rmatMean ((firstLayerWeight net).map (fun row => row.map
          (fun w => 2 / (1 + Real.exp (-3 * |(w : ℝ)| ^ ((1 : ℝ) / 3))) - 1)))
    ∧ batch_combined_loss net (some l) b
      = (batch_mse net b : ℝ) + batch_reg (some l) net
    ∧ (∀ net' : Net, firstLayerWeight net' = firstLayerWeight net →
        batch_reg (some l) net' = batch_reg (some l) net) := by
  refine ⟨?_, rfl, ?_⟩
  · simp only [batch_reg, zero_add, List.map_map, Function.comp_def]
  · intro net' hw
    simp only [batch_reg, hw]

/-- C4 witness: the combined-loss decomposition at a concrete layer and
batch. -/
theorem C4_witness :
    batch_combined_loss net1 (some 1) [{ inputs := [1], targets := [1] }]
      = (batch_mse net1 [{ inputs := [1], targets := [1] }] : ℝ)
        + batch_reg (some 1) net1 :=
  (C4_first_layer_regularizer 1 net1 [{ inputs := [1], targets := [1] }]).2.1

/-- C5.  For every training run from a freshly constructed model (with
the default configuration: 50 epochs, `lambda_delay = 10`,
`est_sparsity = 0.1`), the recorded per-epoch regularization loss is
exactly 0 for every epoch `e < 10`, whatever the black-box optimizer
update and shuffle do; and the regularization strength is non-decreasing
in the epoch index at and beyond the delay. -/
theorem C5_delayed_monotone_regularization :
    (∀ (upd : Net → List Sample → ℝ → Net) (sh : ℕ → List Sample → List Sample)
        (nl nf nt nhl : ℕ) (nrm vb : Bool) (net : Net) (df : List ℚ) (e : ℕ),
        e < 10 →
        (fit upd sh (bifrost_init nl nf nt nhl nrm vb net) df).1.results.epoch_regularizations.get? e
          = some 0)
    ∧ (∀ e e' : ℕ, 10 ≤ e → e ≤ e' →
        ∃ l l' : ℚ, get_regularization_lambda (1 / 10) 10 e = some l
          ∧ get_regularization_lambda (1 / 10) 10 e' = some l' ∧ l ≤ l') := by
  constructor
  · intro upd sh nl nf nt nhl nrm vb net df e he
    rw [fit_unfit_eq upd sh _ df rfl rfl]
    refine train_epochs_regs_get _ upd sh _ _ _ e e ?_ ?_
    · exact List.get?_range (by omega : e < 50)
    · exact he
  · intro e e' h10 hee
    refine ⟨(1 - 1 / 10) * min 1 (((e : ℚ) - ((10 : ℕ) : ℚ) + 1) / 40),
      (1 - 1 / 10) * min 1 (((e' : ℚ) - ((10 : ℕ) : ℚ) + 1) / 40), ?_, ?_, ?_⟩
    · simp only [get_regularization_lambda]
      rw [if_neg (by omega)]
    · simp only [get_regularization_lambda]
      rw [if_neg (by omega)]
    · have hc : (e : ℚ) ≤ (e' : ℚ) := by exact_mod_cast hee
      refine mul_le_mul_of_nonneg_left (min_le_min le_rfl ?_) (by norm_num)
      gcongr

/-- C5 witness: epoch 0 of a concrete run records a zero regularization
loss, and the strength does not decrease from epoch 10 to epoch 11. -/
theorem C5_witness :
    (fit (fun n _ _ => n) (fun _ l => l)
        (bifrost_init 1 1 0 0 false false net1) [0, 1]).1.results.epoch_regularizations.get? 0
      = some 0
    ∧ ∃ l l' : ℚ, get_regularization_lambda (1 / 10) 10 10 = some l
        ∧ get_regularization_lambda (1 / 10) 10 11 = some l' ∧ l ≤ l' :=
  ⟨C5_delayed_monotone_regularization.1 _ _ 1 1 0 0 false false net1 [0, 1] 0 (by norm_num),
   C5_delayed_monotone_regularization.2 10 11 (by norm_num) (by norm_num)⟩

/-- C8.  The Deep variant with `num_hidden_layers = 0` (a single output
layer, the loop applying no activation before layer 0) computes exactly
the same function as the Linear variant on the same parameters, and on a
layer shaped `(n_lags + n_trend) → n_forecasts` its output is a vector
of length `n_forecasts`. -/
theorem C8_deepnet_zero_hidden_is_flatnet (l : LinearLayer) (x : List ℚ) (din dout : ℕ) :
    deep_forward [l] x = flat_forward l x
    ∧ (LayerShape l din dout → (deep_forward [l] x).length = dout) := by
  constructor
  · rfl
  · rintro ⟨hw, _, hb⟩
    show (linear_apply l x).length = dout
    simp [linear_apply, hw, hb]

/-- C8 witness: the coincidence at a concrete layer and input, with the
output length matching the output width. -/
theorem C8_witness :
    deep_forward [{ weight := [[2, 3]], bias := [5] }] [1, 1]
      = flat_forward { weight := [[2, 3]], bias := [5] } [1, 1]
    ∧ (deep_forward [{ weight := [[2, 3]], bias := [5] }] [1, 1]).length = 1 := by
  have h := C8_deepnet_zero_hidden_is_flatnet { weight := [[2, 3]], bias := [5] } [1, 1] 2 1
  refine ⟨h.1, h.2 ⟨rfl, ?_, rfl⟩⟩
  intro r hr
  simp only [List.mem_singleton] at hr
  subst hr
  rfl

/-- C9.  For every series long enough for at least one window, the
tabularizer produces exactly `L - n_lags - n_forecasts + 1` examples,
each with an input of length `n_lags + n_trend` and a target of length
`n_forecasts`. -/
theorem C9_tabularizer_count_and_shapes (ys : List ℚ) (nl nf nt : ℕ)
    (h : nl + nf ≤ ys.length) :
    (tabularize_univariate_datetime ys nl nf nt).length = ys.length - nl - nf + 1
    ∧ ∀ s ∈ tabularize_univariate_datetime ys nl nf nt,
        s.inputs.length = nl + nt ∧ s.targets.length = nf := by
  constructor
  · simp only [tabularize_univariate_datetime, List.length_map, List.length_range']
    omega
  · intro s hs
    simp only [tabularize_univariate_datetime, List.mem_map] at hs
    obtain ⟨t, ht, rfl⟩ := hs
    rw [List.mem_range'_1] at ht
    constructor
    · simp only [List.length_append, List.length_reverse, List.length_take,
        List.length_drop, List.length_map, List.length_range]
      omega
    · simp only [List.length_take, List.length_drop]
      omega

/-- C9 witness: the count and shapes at a concrete series and
parameters (L = 4, n_lags = 2, n_forecasts = 1, n_trend = 1: two
examples, inputs of length 3, targets of length 1). -/
theorem C9_witness :
    (tabularize_univariate_datetime [1, 2, 3, 4] 2 1 1).length = 4 - 2 - 1 + 1
    ∧ ∀ s ∈ tabularize_univariate_datetime [1, 2, 3, 4] 2 1 1,
        s.inputs.length = 2 + 1 ∧ s.targets.length = 1 :=
  C9_tabularizer_count_and_shapes [1, 2, 3, 4] 2 1 1 (by norm_num)

/-- C1 (code defect, at a concrete Fit-state model): `predict` with no
new data takes the last window of the tabularized history and runs one
forward pass on it — the internally computed forecast `predict_forward`
is a vector of length `n_forecasts` of still-normalized values — but the
Python function body of `predict` has no `return` statement, so the call
returns `None` (here: success value `none`) instead of that vector. -/
theorem C1_predict_returns_none :
    predict fitM none = (fitM, .ok none)
    ∧ predict_forward fitM = some [1]
    ∧ ([1] : List ℚ).length = fitM.n_forecasts := by
  refine ⟨rfl, ?_, rfl⟩
  have ht : predict_forward fitM = some (deep_forward net1 [1]) := rfl
  rw [ht]
  simp [deep_forward, deep_forward_aux, linear_apply, dot, net1]

/-- On any Fit-state model, `evaluate` keeps the frozen normalization
params and overwrites the stored history with the normalized evaluation
series (in every branch, including the error ones past `_prep_data`). -/
theorem evaluate_frozen_params_history (m : Bifrost) (df : List ℚ)
    (ta : Option (List ℚ)) (hs : List ℚ) (dp : DataParams)
    (h1 : m.history = some hs) (h2 : m.data_params = some dp) :
    (evaluate m df ta).1.data_params = some dp
    ∧ (evaluate m df ta).1.history = some (normalize_df (check_dataframe df) dp) := by
  rcases ta with _ | ar <;>
    by_cases hds : (tabularize_univariate_datetime (normalize_df (check_dataframe df) dp)
        m.n_lags m.n_forecasts m.n_trend).isEmpty <;>
    by_cases hv : m.verbose <;>
    constructor <;>
    simp [evaluate, h1, h2, hds, hv]

/-- C2 counterexample: `_evaluate` calls `_prep_data`, whose
`self.history = df.copy(deep=True)` overwrites the stored history with
the normalized evaluation series on every evaluation.  A model fit on
`[0, 1]` and then evaluated on the held-out series `[2, 3]` has its
stored fit-time history replaced by `[2, 3]`. -/
theorem C2_counterexample :
    (evaluate fitM [2, 3] none).1.history = some [2, 3]
    ∧ fitM.history = some [0, 1]
    ∧ (evaluate fitM [2, 3] none).1.history ≠ fitM.history := by
  have h := (evaluate_frozen_params_history fitM [2, 3] none [0, 1]
    { shift := 0, scale := 1 } rfl rfl).2
  have hn : normalize_df (check_dataframe [2, 3]) { shift := 0, scale := 1 } = [2, 3] := by
    simp [normalize_df, check_dataframe]
  rw [h, hn]
  refine ⟨rfl, rfl, ?_⟩
  rw [show fitM.history = some [0, 1] from rfl]
  norm_num

/-- C2 amended: the normalization params are written at the first fit
and never rewritten — evaluation reuses the frozen params unchanged —
but the stored history is rewritten by every evaluation: afterwards it
holds the normalized evaluation series, not the fit-time history. -/
theorem C2_params_frozen_history_rewritten (m : Bifrost) (df : List ℚ)
    (ta : Option (List ℚ)) (hs : List ℚ) (dp : DataParams)
    (h1 : m.history = some hs) (h2 : m.data_params = some dp) :
    (evaluate m df ta).1.data_params = some dp
    ∧ (evaluate m df ta).1.history = some (normalize_df (check_dataframe df) dp) :=
  evaluate_frozen_params_history m df ta hs dp h1 h2

/-- C2 witness (for the amended claim): at a concrete fitted model and
held-out series, the params survive evaluation and the history becomes
the normalized evaluation series. -/
theorem C2_witness :
    (evaluate fitM [2, 3] none).1.data_params = some { shift := 0, scale := 1 }
    ∧ (evaluate fitM [2, 3] none).1.history
      = some (normalize_df (check_dataframe [2, 3]) { shift := 0, scale := 1 }) :=
  C2_params_frozen_history_rewritten fitM [2, 3] none [0, 1]
    { shift := 0, scale := 1 } rfl rfl

/-- C7.  Over a non-empty held-out example collection, the aggregated
mean squared loss (`loss_val`, the mean of the per-batch losses) equals
the independently computed MSE (`mse_val`, over the concatenated
predictions and targets), because evaluation uses a single unshuffled
batch spanning the whole collection. -/
theorem C7_eval_loss_equals_mse (m : Bifrost) (df : List ℚ) (hs : List ℚ)
    (dp : DataParams) (h1 : m.history = some hs) (h2 : m.data_params = some dp)
    (hne : tabularize_univariate_datetime (normalize_df (check_dataframe df) dp)
      m.n_lags m.n_forecasts m.n_trend ≠ []) :
    (evaluate m df none).2 = .ok ()
    ∧ (evaluate m df none).1.results.loss_val = (evaluate m df none).1.results.mse_val := by
  have hb := batchify_self _ hne
  constructor <;>
    simp [evaluate, h1, h2, hne, hb, qmean_singleton, batch_mse]

/-- C7 witness: the coincidence at a concrete fitted model and held-out
series. -/
theorem C7_witness :
    (evaluate fitM [0, 1] none).2 = .ok ()
    ∧ (evaluate fitM [0, 1] none).1.results.loss_val
      = (evaluate fitM [0, 1] none).1.results.mse_val :=
  C7_eval_loss_equals_mse fitM [0, 1] [0, 1] { shift := 0, scale := 1 } rfl rfl
    (by decide)

/-- C10.  On a fitted model with a non-empty evaluation collection and
ground-truth AR coefficients supplied, evaluation stores the symmetric
total percentage error and then raises an error exactly when verbose is
enabled (the verbose branch references the undefined name `stats`);
with verbose disabled it completes successfully. -/
theorem C10_verbose_ground_truth_error (m : Bifrost) (df ar : List ℚ) (hs : List ℚ)
    (dp : DataParams) (h1 : m.history = some hs) (h2 : m.data_params = some dp)
    (hne : tabularize_univariate_datetime (normalize_df (check_dataframe df) dp)
      m.n_lags m.n_forecasts m.n_trend ≠ []) :
    ((evaluate m df (some ar)).2 = .error .nameError ↔ m.verbose = true)
    ∧ (m.verbose = false → (evaluate m df (some ar)).2 = .ok ())
    ∧ (evaluate m df (some ar)).1.results.sTPE_weights
      = some (symmetric_total_percentage_error ar ((firstRow m.model).reverse)) := by
  by_cases hv : m.verbose <;>
    refine ⟨?_, ?_, ?_⟩ <;>
    simp [evaluate, h1, h2, hne, hv]

/-- On a successful evaluation path, the stored coefficient vector is
row 0 of the first layer's weight matrix, reversed
(`weights_rereversed`). -/
theorem evaluate_weights (m : Bifrost) (df : List ℚ) (hs : List ℚ) (dp : DataParams)
    (h1 : m.history = some hs) (h2 : m.data_params = some dp)
    (hne : tabularize_univariate_datetime (normalize_df (check_dataframe df) dp)
      m.n_lags m.n_forecasts m.n_trend ≠ []) :
    (evaluate m df none).1.results.weights = some ((firstRow m.model).reverse) := by
  simp [evaluate, h1, h2, hne]

/-- C6 counterexample: with a trend feature present (`n_trend = 1`, the
constructor default), the stored vector `[3, 2, 1]` (row 0 reversed)
starts with the trend feature's weight 3, not the most distant lag's
coefficient.  The only window of `[10, 20, 30]` is `[20, 10, 2]` (most
recent lag, most distant lag, trend index), so the most distant lag
`ys[0] = 10` is input feature 1, whose weight is `firstRow[1] = 2`, yet
the stored vector's index 0 holds 3. -/
theorem C6_counterexample :
    (evaluate mC6 [10, 20, 30] none).1.results.weights = some [3, 2, 1]
    ∧ tabularize_univariate_datetime [10, 20, 30] 2 1 1
        = [{ inputs := [20, 10, 2], targets := [30] }]
    ∧ (firstRow mC6.model).get? 1 = some 2
    ∧ ([3, 2, 1] : List ℚ).get? 0 ≠ (firstRow mC6.model).get? 1 := by
  refine ⟨?_, ?_, rfl, ?_⟩
  · rw [evaluate_weights mC6 [10, 20, 30] [10, 20, 30] { shift := 0, scale := 1 }
      rfl rfl (by decide)]
    rfl
  · decide
  · norm_num [firstRow, firstLayerWeight, firstLayer, mC6]

/-- C6 amended: after evaluation the stored coefficient vector equals
row 0 of the first layer's weight matrix with its entries reversed; the
tabularizer's internal lag order is most-recent-first (feature `i` of a
window with origin `t` holds `ys[t-1-i]`, so feature `n_lags - 1` holds
the most distant lag), and therefore index 0 of the stored vector holds
the most distant lag's coefficient exactly when `n_trend = 0`; with
`n_trend > 0` the reversal puts the trailing trend-feature weights
first. -/
theorem C6_weights_row_zero_rereversed (m : Bifrost) (df : List ℚ) (hs : List ℚ)
    (dp : DataParams) (h1 : m.history = some hs) (h2 : m.data_params = some dp)
    (hne : tabularize_univariate_datetime (normalize_df (check_dataframe df) dp)
      m.n_lags m.n_forecasts m.n_trend ≠ []) :
    (evaluate m df none).1.results.weights = some ((firstRow m.model).reverse)
    ∧ (∀ (ys : List ℚ) (nf : ℕ) (s : Sample),
        s ∈ tabularize_univariate_datetime ys m.n_lags nf 0 →
        ∃ t, m.n_lags ≤ t ∧ t + nf ≤ ys.length ∧
          ∀ i, i < m.n_lags → s.inputs.get? i = ys.get? (t - 1 - i))
    ∧ (0 < m.n_lags → m.n_trend = 0 →
        (firstRow m.model).length = m.n_lags + m.n_trend →
        ((firstRow m.model).reverse).get? 0 = (firstRow m.model).get? (m.n_lags - 1)) := by
  refine ⟨evaluate_weights m df hs dp h1 h2 hne, ?_, ?_⟩
  · intro ys nf s hsmem
    simp only [tabularize_univariate_datetime, List.mem_map] at hsmem
    obtain ⟨t, ht, rfl⟩ := hsmem
    rw [List.mem_range'_1] at ht
    refine ⟨t, ht.1, by omega, ?_⟩
    intro i hi
    have hnt : (List.range 0).map (fun _ => (t : ℚ)) = [] := rfl
    simp only [hnt, List.append_nil]
    have hwl : ((ys.drop (t - m.n_lags)).take m.n_lags).length = m.n_lags := by
      simp only [List.length_take, List.length_drop]
      omega
    rw [List.get?_reverse (by rw [hwl]; exact hi), hwl,
      List.get?_take (by omega), List.get?_drop]
    congr 1
    omega
  · intro hnl hnt hlen
    rw [List.get?_reverse (by omega)]
    congr 1
    omega

/-- C6 witness (for the amended claim): at a concrete trend-free fitted
model, the stored vector is the reversed weight row and its index 0 is
the weight of input feature `n_lags - 1`, the most distant lag. -/
theorem C6_witness :
    (evaluate fitM [0, 1] none).1.results.weights = some ((firstRow fitM.model).reverse)
    ∧ ((firstRow fitM.model).reverse).get? 0 = (firstRow fitM.model).get? (fitM.n_lags - 1) :=
  ⟨(C6_weights_row_zero_rereversed fitM [0, 1] [0, 1] { shift := 0, scale := 1 }
      rfl rfl (by decide)).1,
   (C6_weights_row_zero_rereversed fitM [0, 1] [0, 1] { shift := 0, scale := 1 }
      rfl rfl (by decide)).2.2 (by decide) rfl rfl⟩

/-- C10 witness: with ground truth supplied, the concrete verbose model
errors and the concrete non-verbose model succeeds. -/
theorem C10_witness :
    (evaluate fitMV [0, 1] (some [1])).2 = .error .nameError
    ∧ (evaluate fitM [0, 1] (some [1])).2 = .ok () :=
  ⟨(C10_verbose_ground_truth_error fitMV [0, 1] [1] [0, 1] { shift := 0, scale := 1 }
      rfl rfl (by decide)).1.mpr rfl,
   (C10_verbose_ground_truth_error fitM [0, 1] [1] [0, 1] { shift := 0, scale := 1 }
      rfl rfl (by decide)).2.1 rfl⟩

